import Mathlib

/-!
Shallow embedding of the TeeJosh inventory backend (src/index.ts): an
Express app whose handlers call a Prisma client over tables producto,
item, edicion, lenguaje, reg_venta and producto_venta.  Each handler is
modelled as a pure function from the datastore state (plus explicit
collaborator-failure flags standing for a throwing Prisma call) to an
HTTP outcome, the new datastore state, and the trace of Prisma
operations the handler issued.
-/

/-- A row of the producto table: surrogate id and name. -/
structure Producto where
  id : Int
  nombre : String
deriving Repr, DecidableEq

/-- A row of the edicion table. -/
structure Edicion where
  id : Int
  nombre : String
deriving Repr, DecidableEq

/-- A row of the lenguaje table. -/
structure Lenguaje where
  id : Int
  nombre : String
deriving Repr, DecidableEq

/-- A row of the item table.  id_edicion is the nullable FK. -/
structure Item where
  id : Int
  id_producto : Int
  precio : Rat
  cantidad : Int
  id_edicion : Option Int
  id_lenguaje : Int
deriving Repr, DecidableEq

/-- A row of the reg_venta table.  fecha and hora are nullable Date
columns; we model a stored Date by the string handed to the JS Date
constructor. -/
structure RegVenta where
  id_reg_venta : Int
  monto_total : Rat
  fecha : Option String
  hora : Option String
  m_pago : String
deriving Repr, DecidableEq

/-- A row of the producto_venta table (one sale line item). -/
structure ProductoVenta where
  id : Int
  id_producto : Int
  id_reg_venta : Int
  cantidad : Int
  monto : Rat
deriving Repr, DecidableEq

/-- The datastore state: one list per table plus the auto-increment
counters the collaborator uses for surrogate keys. -/
structure DB where
  productos : List Producto
  items : List Item
  ediciones : List Edicion
  lenguajes : List Lenguaje
  reg_ventas : List RegVenta
  producto_ventas : List ProductoVenta
  nextItemId : Int
  nextRegVentaId : Int
  nextProductoVentaId : Int
deriving Repr, DecidableEq

/-- The tables of the schema, used to label Prisma operations. -/
inductive Table where
  | producto
  | item
  | edicion
  | lenguaje
  | reg_venta
  | producto_venta
deriving Repr, DecidableEq

/-- One Prisma client call, as issued by a handler. -/
inductive PrismaOp where
  | findMany (t : Table)
  | findUnique (t : Table)
  | create (t : Table)
  | update (t : Table)
  | delete (t : Table)
  | deleteMany (t : Table)
deriving Repr, DecidableEq

/-- A Prisma operation is a pure read (find/findMany). -/
def opIsRead : PrismaOp → Bool
  | .findMany _ => true
  | .findUnique _ => true
  | _ => false

/-- The HTTP outcome of a handler: a success status with a JSON body, or
an error status with a JSON message object such as
(error: Internal server error). -/
inductive ApiOut (α : Type) where
  | success (status : Nat) (body : α)
  | jsonError (status : Nat) (message : String)
deriving Repr, DecidableEq

/-- The full effect of one handler invocation: outcome, resulting
datastore, and the trace of Prisma calls issued. -/
structure Step (α : Type) where
  out : ApiOut α
  db : DB
  ops : List PrismaOp
deriving Repr, DecidableEq

/-- JS null-coalescing on a nullable integer FK, as in
id_edicion || null: undefined/null and the falsy number 0 collapse to
null, every other integer passes through. -/
def orNull (v : Option Int) : Option Int :=
  match v with
  | none => none
  | some x => if x = 0 then none else some x

/-- The stored fecha column: fecha ? new Date(fecha) : null.  The falsy
strings are absence and the empty string. -/
def jsDateOrNull (v : Option String) : Option String :=
  match v with
  | none => none
  | some s => if s = "" then none else some s

/-- The stored hora column: hora ? new Date("1970-01-01T" + hora) : null,
composing the fixed epoch date with the caller-supplied time of day. -/
def epochTimeOrNull (v : Option String) : Option String :=
  match v with
  | none => none
  | some s => if s = "" then none else some ("1970-01-01T" ++ s)

/-- Request body of POST /items and PUT /items/:id. -/
structure ItemBody where
  id_producto : Int
  precio : Rat
  cantidad : Int
  id_edicion : Option Int
  id_lenguaje : Int
deriving Repr, DecidableEq

/-- Request body of POST /ventas and PUT /ventas/:id. -/
structure VentaBody where
  monto_total : Rat
  fecha : Option String
  hora : Option String
  m_pago : String
deriving Repr, DecidableEq

/-- Request body of POST /producto_venta and PUT /producto_venta/:id. -/
structure PVBody where
  id_producto : Int
  id_reg_venta : Int
  cantidad : Int
  monto : Rat
deriving Repr, DecidableEq

/-- A related record selected as (id, nombre) by an include clause. -/
structure NameRef where
  id : Int
  nombre : String
deriving Repr, DecidableEq

/-- An item as returned by GET /items: the row with its producto,
edicion and lenguaje relations eager-loaded. -/
structure ItemFull where
  item : Item
  producto : Option NameRef
  edicion : Option NameRef
  lenguaje : Option NameRef
deriving Repr, DecidableEq

/-- A sale as returned by GET /ventas and GET /ventas/:id: the reg_venta
row with its producto_venta line items nested. -/
structure VentaWithPV where
  venta : RegVenta
  producto_venta : List ProductoVenta
deriving Repr, DecidableEq

/-- A producto_venta row as returned by GET /producto_venta, with its
producto and reg_venta relations eager-loaded. -/
structure PVFull where
  pv : ProductoVenta
  producto : Option Producto
  reg_venta : Option RegVenta
deriving Repr, DecidableEq

/-- The fixed 500 body used by every catch block. -/
def internalError {α : Type} : ApiOut α := .jsonError 500 "Internal server error"

/-- GET / : liveness string, no Prisma call. -/
def getRoot (db : DB) : Step String :=
  ⟨.success 200 "API is running 🚀", db, []⟩

/-- GET /productos : findMany over producto. -/
def getProductos (db : DB) (fail : Bool) : Step (List Producto) :=
  if fail then ⟨internalError, db, [.findMany .producto]⟩
  else ⟨.success 200 db.productos, db, [.findMany .producto]⟩

/-- The eager-loaded view of one item row, as built by the include
clause of GET /items. -/
def itemFullOf (db : DB) (it : Item) : ItemFull :=
  ⟨it,
   (db.productos.find? (fun p => p.id == it.id_producto)).map (fun p => ⟨p.id, p.nombre⟩),
   (it.id_edicion.bind (fun e => db.ediciones.find? (fun x => x.id == e))).map (fun x => ⟨x.id, x.nombre⟩),
   (db.lenguajes.find? (fun l => l.id == it.id_lenguaje)).map (fun l => ⟨l.id, l.nombre⟩)⟩

/-- GET /items : findMany over item with producto, edicion and lenguaje
included. -/
def getItems (db : DB) (fail : Bool) : Step (List ItemFull) :=
  if fail then ⟨internalError, db, [.findMany .item]⟩
  else ⟨.success 200 (db.items.map (itemFullOf db)), db, [.findMany .item]⟩

/-- GET /items/:id : findUnique by primary key; 404 when absent. -/
def getItem (db : DB) (id : Int) (fail : Bool) : Step Item :=
  if fail then ⟨internalError, db, [.findUnique .item]⟩
  else
    match db.items.find? (fun it => it.id == id) with
    | none => ⟨.jsonError 404 "Item not found", db, [.findUnique .item]⟩
    | some it => ⟨.success 200 it, db, [.findUnique .item]⟩

/-- POST /items : create with id_edicion coalesced by id_edicion || null. -/
def postItems (db : DB) (b : ItemBody) (fail : Bool) : Step Item :=
  if fail then ⟨internalError, db, [.create .item]⟩
  else
    let it : Item :=
      ⟨db.nextItemId, b.id_producto, b.precio, b.cantidad, orNull b.id_edicion, b.id_lenguaje⟩
    ⟨.success 201 it,
     { db with items := db.items ++ [it], nextItemId := db.nextItemId + 1 },
     [.create .item]⟩

/-- PUT /items/:id : update by primary key; Prisma throws when the row is
absent, which the catch block turns into the generic 500. -/
def putItem (db : DB) (id : Int) (b : ItemBody) (fail : Bool) : Step Item :=
  if fail then ⟨internalError, db, [.update .item]⟩
  else
    match db.items.find? (fun it => it.id == id) with
    | none => ⟨internalError, db, [.update .item]⟩
    | some old =>
      let it : Item :=
        ⟨old.id, b.id_producto, b.precio, b.cantidad, orNull b.id_edicion, b.id_lenguaje⟩
      ⟨.success 200 it,
       { db with items := db.items.map (fun x => if x.id == id then it else x) },
       [.update .item]⟩

/-- DELETE /items/:id : delete by primary key; Prisma throws when the
row is absent. -/
def deleteItem (db : DB) (id : Int) (fail : Bool) : Step String :=
  if fail then ⟨internalError, db, [.delete .item]⟩
  else if db.items.any (fun it => it.id == id) then
    ⟨.success 200 "Item deleted successfully",
     { db with items := db.items.filter (fun it => !(it.id == id)) },
     [.delete .item]⟩
  else ⟨internalError, db, [.delete .item]⟩

/-- GET /ediciones : findMany over edicion. -/
def getEdiciones (db : DB) (fail : Bool) : Step (List Edicion) :=
  if fail then ⟨internalError, db, [.findMany .edicion]⟩
  else ⟨.success 200 db.ediciones, db, [.findMany .edicion]⟩

/-- GET /lenguajes : findMany over lenguaje. -/
def getLenguajes (db : DB) (fail : Bool) : Step (List Lenguaje) :=
  if fail then ⟨internalError, db, [.findMany .lenguaje]⟩
  else ⟨.success 200 db.lenguajes, db, [.findMany .lenguaje]⟩

/-- Descending order on reg_venta primary keys, the orderBy clause of
GET /ventas. -/
def ventaGE (a b : RegVenta) : Prop := b.id_reg_venta ≤ a.id_reg_venta

instance : DecidableRel ventaGE :=
  fun a b => inferInstanceAs (Decidable (b.id_reg_venta ≤ a.id_reg_venta))

instance : IsTotal RegVenta ventaGE :=
  ⟨fun a b => (le_total b.id_reg_venta a.id_reg_venta).imp (fun h => h) (fun h => h)⟩

instance : IsTrans RegVenta ventaGE :=
  ⟨fun _ _ _ h1 h2 => le_trans h2 h1⟩

/-- The line items nested under one sale by the include clause. -/
def pvOf (db : DB) (v : RegVenta) : List ProductoVenta :=
  db.producto_ventas.filter (fun pv => pv.id_reg_venta == v.id_reg_venta)

/-- The body of GET /ventas: all reg_venta rows sorted by id_reg_venta
descending, each with its producto_venta rows nested. -/
def ventasView (db : DB) : List VentaWithPV :=
  (List.insertionSort ventaGE db.reg_ventas).map (fun v => ⟨v, pvOf db v⟩)

/-- GET /ventas : findMany over reg_venta with producto_venta included,
ordered by id_reg_venta descending. -/
def getVentas (db : DB) (fail : Bool) : Step (List VentaWithPV) :=
  if fail then ⟨internalError, db, [.findMany .reg_venta]⟩
  else ⟨.success 200 (ventasView db), db, [.findMany .reg_venta]⟩

/-- GET /ventas/:id : findUnique with producto_venta included; 404 when
absent. -/
def getVenta (db : DB) (id : Int) (fail : Bool) : Step VentaWithPV :=
  if fail then ⟨internalError, db, [.findUnique .reg_venta]⟩
  else
    match db.reg_ventas.find? (fun v => v.id_reg_venta == id) with
    | none => ⟨.jsonError 404 "Venta not found", db, [.findUnique .reg_venta]⟩
    | some v => ⟨.success 200 ⟨v, pvOf db v⟩, db, [.findUnique .reg_venta]⟩

/-- POST /ventas : create with fecha and hora run through the JS Date
conditionals. -/
def postVentas (db : DB) (b : VentaBody) (fail : Bool) : Step RegVenta :=
  if fail then ⟨internalError, db, [.create .reg_venta]⟩
  else
    let v : RegVenta :=
      ⟨db.nextRegVentaId, b.monto_total, jsDateOrNull b.fecha, epochTimeOrNull b.hora, b.m_pago⟩
    ⟨.success 201 v,
     { db with reg_ventas := db.reg_ventas ++ [v], nextRegVentaId := db.nextRegVentaId + 1 },
     [.create .reg_venta]⟩

/-- PUT /ventas/:id : update by primary key with the same fecha/hora
conditionals; Prisma throws when the row is absent. -/
def putVenta (db : DB) (id : Int) (b : VentaBody) (fail : Bool) : Step RegVenta :=
  if fail then ⟨internalError, db, [.update .reg_venta]⟩
  else
    match db.reg_ventas.find? (fun v => v.id_reg_venta == id) with
    | none => ⟨internalError, db, [.update .reg_venta]⟩
    | some old =>
      let v : RegVenta :=
        ⟨old.id_reg_venta, b.monto_total, jsDateOrNull b.fecha, epochTimeOrNull b.hora, b.m_pago⟩
      ⟨.success 200 v,
       { db with reg_ventas := db.reg_ventas.map (fun x => if x.id_reg_venta == id then v else x) },
       [.update .reg_venta]⟩

/-- DELETE /ventas/:id : first deleteMany over producto_venta matching
the id, then delete the reg_venta row.  fail1 makes the first call
throw (the second is then never issued); fail2 makes the second call
throw after the first has already committed. -/
def deleteVenta (db : DB) (id : Int) (fail1 fail2 : Bool) : Step String :=
  if fail1 then ⟨internalError, db, [.deleteMany .producto_venta]⟩
  else
    let db1 : DB :=
      { db with producto_ventas := db.producto_ventas.filter (fun pv => !(pv.id_reg_venta == id)) }
    if fail2 then ⟨internalError, db1, [.deleteMany .producto_venta, .delete .reg_venta]⟩
    else if db1.reg_ventas.any (fun v => v.id_reg_venta == id) then
      ⟨.success 200 "Venta deleted successfully",
       { db1 with reg_ventas := db1.reg_ventas.filter (fun v => !(v.id_reg_venta == id)) },
       [.deleteMany .producto_venta, .delete .reg_venta]⟩
    else ⟨internalError, db1, [.deleteMany .producto_venta, .delete .reg_venta]⟩

/-- The eager-loaded view of one producto_venta row in
GET /producto_venta. -/
def pvFullOf (db : DB) (pv : ProductoVenta) : PVFull :=
  ⟨pv,
   db.productos.find? (fun p => p.id == pv.id_producto),
   db.reg_ventas.find? (fun v => v.id_reg_venta == pv.id_reg_venta)⟩

/-- GET /producto_venta : findMany with producto and reg_venta included. -/
def getProductoVentas (db : DB) (fail : Bool) : Step (List PVFull) :=
  if fail then ⟨internalError, db, [.findMany .producto_venta]⟩
  else ⟨.success 200 (db.producto_ventas.map (pvFullOf db)), db, [.findMany .producto_venta]⟩

/-- POST /producto_venta : create passing all four body fields through
unmodified. -/
def postProductoVenta (db : DB) (b : PVBody) (fail : Bool) : Step ProductoVenta :=
  if fail then ⟨internalError, db, [.create .producto_venta]⟩
  else
    let pv : ProductoVenta :=
      ⟨db.nextProductoVentaId, b.id_producto, b.id_reg_venta, b.cantidad, b.monto⟩
    ⟨.success 201 pv,
     { db with producto_ventas := db.producto_ventas ++ [pv],
               nextProductoVentaId := db.nextProductoVentaId + 1 },
     [.create .producto_venta]⟩

/-- PUT /producto_venta/:id : update by primary key passing all four
body fields through unmodified; Prisma throws when the row is absent. -/
def putProductoVenta (db : DB) (id : Int) (b : PVBody) (fail : Bool) : Step ProductoVenta :=
  if fail then ⟨internalError, db, [.update .producto_venta]⟩
  else
    match db.producto_ventas.find? (fun pv => pv.id == id) with
    | none => ⟨internalError, db, [.update .producto_venta]⟩
    | some old =>
      let pv : ProductoVenta :=
        ⟨old.id, b.id_producto, b.id_reg_venta, b.cantidad, b.monto⟩
      ⟨.success 200 pv,
       { db with producto_ventas := db.producto_ventas.map (fun x => if x.id == id then pv else x) },
       [.update .producto_venta]⟩

/-- DELETE /producto_venta/:id : delete by primary key; Prisma throws
when the row is absent. -/
def deleteProductoVenta (db : DB) (id : Int) (fail : Bool) : Step String :=
  if fail then ⟨internalError, db, [.delete .producto_venta]⟩
  else if db.producto_ventas.any (fun pv => pv.id == id) then
    ⟨.success 200 "ProductoVenta deleted successfully",
     { db with producto_ventas := db.producto_ventas.filter (fun pv => !(pv.id == id)) },
     [.delete .producto_venta]⟩
  else ⟨internalError, db, [.delete .producto_venta]⟩

/-! Sample rows and datastore states used by witnesses. -/

/-- A sample item row. -/
def itemA : Item := ⟨1, 1, 999/100, 5, none, 2⟩

/-- A sample sale row. -/
def ventaA : RegVenta := ⟨1, 50, none, some "1970-01-01T12:30:00", "efectivo"⟩

/-- A sample sale line item referencing ventaA. -/
def pvA : ProductoVenta := ⟨1, 1, 1, 2, 25⟩

/-- A sample datastore holding itemA, ventaA and pvA. -/
def dbA : DB := ⟨[⟨1, "polera"⟩], [itemA], [], [], [ventaA], [pvA], 2, 2, 2⟩

/-- C3: for every id with no item record, GET /items/:id returns 404 with
body (error: Item not found); for every id with a record, 200 with that
item as JSON. -/
theorem getItem_found_or_404 (db : DB) (id : Int) :
    (db.items.find? (fun it => it.id == id) = none →
      getItem db id false = ⟨.jsonError 404 "Item not found", db, [.findUnique .item]⟩) ∧
    (∀ it, db.items.find? (fun it => it.id == id) = some it →
      getItem db id false = ⟨.success 200 it, db, [.findUnique .item]⟩) := by
  constructor
  · intro h
    simp [getItem, h]
  · intro it h
    simp [getItem, h]

/-- Witness for C3: on dbA, id 1 is found and id 7 yields the 404 body. -/
theorem getItem_found_or_404_witness :
    getItem dbA 1 false = ⟨.success 200 itemA, dbA, [.findUnique .item]⟩ ∧
    getItem dbA 7 false = ⟨.jsonError 404 "Item not found", dbA, [.findUnique .item]⟩ :=
  ⟨(getItem_found_or_404 dbA 1).2 itemA (by rfl),
   (getItem_found_or_404 dbA 7).1 (by rfl)⟩

/-- C4: when id_edicion is omitted or falsy (including the valid value 0),
POST /items and PUT /items/:id persist the item with id_edicion = null
while storing all other supplied fields as given. -/
theorem item_id_edicion_coalesced (db : DB) (id : Int) (b : ItemBody)
    (hfalsy : b.id_edicion = none ∨ b.id_edicion = some 0) :
    (∃ it, (postItems db b false).out = .success 201 it ∧ it.id_edicion = none ∧
      it.id_producto = b.id_producto ∧ it.precio = b.precio ∧
      it.cantidad = b.cantidad ∧ it.id_lenguaje = b.id_lenguaje) ∧
    (∀ old, db.items.find? (fun it => it.id == id) = some old →
      ∃ it, (putItem db id b false).out = .success 200 it ∧ it.id_edicion = none ∧
        it.id_producto = b.id_producto ∧ it.precio = b.precio ∧
        it.cantidad = b.cantidad ∧ it.id_lenguaje = b.id_lenguaje) := by
  have hnull : orNull b.id_edicion = none := by
    rcases hfalsy with h | h <;> simp [orNull, h]
  constructor
  · exact ⟨⟨db.nextItemId, b.id_producto, b.precio, b.cantidad, orNull b.id_edicion,
      b.id_lenguaje⟩, rfl, hnull, rfl, rfl, rfl, rfl⟩
  · intro old hfind
    refine ⟨⟨old.id, b.id_producto, b.precio, b.cantidad, orNull b.id_edicion,
      b.id_lenguaje⟩, ?_, hnull, rfl, rfl, rfl, rfl⟩
    simp [putItem, hfind]

/-- Witness for C4: creating with id_edicion = 0 over dbA, and updating
item 1 with id_edicion omitted, both store null. -/
theorem item_id_edicion_coalesced_witness :
    (∃ it, (postItems dbA ⟨3, 7, 1, some 0, 2⟩ false).out = .success 201 it ∧
      it.id_edicion = none ∧ it.id_producto = 3 ∧ it.precio = 7 ∧
      it.cantidad = 1 ∧ it.id_lenguaje = 2) ∧
    (∃ it, (putItem dbA 1 ⟨3, 7, 1, none, 2⟩ false).out = .success 200 it ∧
      it.id_edicion = none ∧ it.id_producto = 3 ∧ it.precio = 7 ∧
      it.cantidad = 1 ∧ it.id_lenguaje = 2) :=
  ⟨(item_id_edicion_coalesced dbA 1 ⟨3, 7, 1, some 0, 2⟩ (Or.inr rfl)).1,
   (item_id_edicion_coalesced dbA 1 ⟨3, 7, 1, none, 2⟩ (Or.inl rfl)).2 itemA (by rfl)⟩

/-- C9: every GET handler leaves the datastore unchanged and issues only
find/findMany collaborator calls, whatever the outcome. -/
theorem get_handlers_pure (db : DB) (id : Int) (fail : Bool) :
    ((getRoot db).db = db ∧ ((getRoot db).ops.all opIsRead) = true) ∧
    ((getProductos db fail).db = db ∧ ((getProductos db fail).ops.all opIsRead) = true) ∧
    ((getItems db fail).db = db ∧ ((getItems db fail).ops.all opIsRead) = true) ∧
    ((getItem db id fail).db = db ∧ ((getItem db id fail).ops.all opIsRead) = true) ∧
    ((getEdiciones db fail).db = db ∧ ((getEdiciones db fail).ops.all opIsRead) = true) ∧
    ((getLenguajes db fail).db = db ∧ ((getLenguajes db fail).ops.all opIsRead) = true) ∧
    ((getVentas db fail).db = db ∧ ((getVentas db fail).ops.all opIsRead) = true) ∧
    ((getVenta db id fail).db = db ∧ ((getVenta db id fail).ops.all opIsRead) = true) ∧
    ((getProductoVentas db fail).db = db ∧ ((getProductoVentas db fail).ops.all opIsRead) = true) := by
  refine ⟨⟨rfl, rfl⟩, ?_, ?_, ?_, ?_, ?_, ?_, ?_, ?_⟩ <;> cases fail
  case _ => exact ⟨rfl, rfl⟩
  case _ => exact ⟨rfl, rfl⟩
  case _ => exact ⟨rfl, rfl⟩
  case _ => exact ⟨rfl, rfl⟩
  case _ =>
    cases h : db.items.find? (fun it => it.id == id) <;> simp [getItem, h, opIsRead]
  case _ => exact ⟨rfl, rfl⟩
  case _ => exact ⟨rfl, rfl⟩
  case _ => exact ⟨rfl, rfl⟩
  case _ => exact ⟨rfl, rfl⟩
  case _ => exact ⟨rfl, rfl⟩
  case _ => exact ⟨rfl, rfl⟩
  case _ => exact ⟨rfl, rfl⟩
  case _ =>
    cases h : db.reg_ventas.find? (fun v => v.id_reg_venta == id) <;> simp [getVenta, h, opIsRead]
  case _ => exact ⟨rfl, rfl⟩
  case _ => exact ⟨rfl, rfl⟩
  case _ => exact ⟨rfl, rfl⟩

/-- C10: POST /producto_venta and PUT /producto_venta/:id pass
id_producto, id_reg_venta, cantidad and monto through unmodified, with no
falsy-to-null coalescing, so a supplied 0 is stored as 0. -/
theorem producto_venta_passthrough (db : DB) (id : Int) (b : PVBody) :
    (∃ pv, (postProductoVenta db b false).out = .success 201 pv ∧
      pv.id_producto = b.id_producto ∧ pv.id_reg_venta = b.id_reg_venta ∧
      pv.cantidad = b.cantidad ∧ pv.monto = b.monto) ∧
    (∀ old, db.producto_ventas.find? (fun pv => pv.id == id) = some old →
      ∃ pv, (putProductoVenta db id b false).out = .success 200 pv ∧
        pv.id_producto = b.id_producto ∧ pv.id_reg_venta = b.id_reg_venta ∧
        pv.cantidad = b.cantidad ∧ pv.monto = b.monto) ∧
    (postProductoVenta db ⟨0, 0, 0, 0⟩ false).out =
      .success 201 ⟨db.nextProductoVentaId, 0, 0, 0, 0⟩ := by
  refine ⟨⟨⟨db.nextProductoVentaId, b.id_producto, b.id_reg_venta, b.cantidad, b.monto⟩,
    rfl, rfl, rfl, rfl, rfl⟩, ?_, rfl⟩
  intro old hfind
  refine ⟨⟨old.id, b.id_producto, b.id_reg_venta, b.cantidad, b.monto⟩,
    ?_, rfl, rfl, rfl, rfl⟩
  simp [putProductoVenta, hfind]

/-- Witness for C10: updating line item 1 of dbA with all-zero fields
stores the zeros verbatim. -/
theorem producto_venta_passthrough_witness :
    ∃ pv, (putProductoVenta dbA 1 ⟨0, 0, 0, 0⟩ false).out = .success 200 pv ∧
      pv.id_producto = 0 ∧ pv.id_reg_venta = 0 ∧ pv.cantidad = 0 ∧ pv.monto = 0 :=
  (producto_venta_passthrough dbA 1 ⟨0, 0, 0, 0⟩).2.1 pvA (by rfl)

/-- Rows surviving a filter that removed every match of p are never
found by p. -/
theorem find?_filter_not {α : Type} (p : α → Bool) (l : List α) :
    (l.filter (fun x => !(p x))).find? p = none := by
  rw [List.find?_eq_none]
  intro x hx
  have h2 := (List.mem_filter.mp hx).2
  simp at h2
  simp [h2]

/-- Every row surviving a filter satisfies the filter predicate. -/
theorem all_filter_self {α : Type} (p : α → Bool) (l : List α) :
    ((l.filter p).all p) = true := by
  rw [List.all_eq_true]
  intro x hx
  exact (List.mem_filter.mp hx).2

/-- C1: DELETE /ventas/:id issues the two-step cascade (deleteMany over
producto_venta, then delete of the reg_venta row), and whenever it
responds 200 the resulting state has zero producto_venta rows
referencing the id and GET /ventas/:id then returns 404. -/
theorem deleteVenta_cascade (db : DB) (id : Int) (f1 f2 : Bool) :
    (deleteVenta db id false false).ops = [.deleteMany .producto_venta, .delete .reg_venta] ∧
    (∀ s, (deleteVenta db id f1 f2).out = .success 200 s →
      ((deleteVenta db id f1 f2).db.producto_ventas.all
        (fun pv => !(pv.id_reg_venta == id))) = true ∧
      (getVenta ((deleteVenta db id f1 f2).db) id false).out =
        .jsonError 404 "Venta not found") := by
  constructor
  · simp only [deleteVenta, Bool.false_eq_true, if_false]
    split <;> rfl
  · intro s hout
    cases f1
    case true => simp [deleteVenta, internalError] at hout
    case false =>
      cases f2
      case true => simp [deleteVenta, internalError] at hout
      case false =>
        by_cases hany : (db.reg_ventas.any (fun v => v.id_reg_venta == id)) = true
        · have hfind : ((db.reg_ventas.filter
              (fun v => !(v.id_reg_venta == id))).find? (fun v => v.id_reg_venta == id)) = none :=
            find?_filter_not _ _
          constructor
          · simp only [deleteVenta, Bool.false_eq_true, if_false, hany, if_true]
            exact all_filter_self _ _
          · simp [deleteVenta, hany, getVenta, hfind]
        · exfalso
          simp [deleteVenta, internalError, hany] at hout

/-- Witness for C1: deleting sale 1 of dbA succeeds, clears its line
items and makes the follow-up GET return 404. -/
theorem deleteVenta_cascade_witness :
    ((deleteVenta dbA 1 false false).db.producto_ventas.all
      (fun pv => !(pv.id_reg_venta == 1))) = true ∧
    (getVenta ((deleteVenta dbA 1 false false).db) 1 false).out =
      .jsonError 404 "Venta not found" :=
  (deleteVenta_cascade dbA 1 false false).2 "Venta deleted successfully" (by rfl)

/-- C2: every mutating handler other than DELETE /ventas/:id is atomic —
an error response leaves the datastore unchanged — while DELETE
/ventas/:id can return 500 with its dependent producto_venta rows
already deleted and the parent reg_venta row still present. -/
theorem handlers_atomic_except_deleteVenta :
    (∀ db b f st m, (postItems db b f).out = .jsonError st m → (postItems db b f).db = db) ∧
    (∀ db id b f st m, (putItem db id b f).out = .jsonError st m → (putItem db id b f).db = db) ∧
    (∀ db id f st m, (deleteItem db id f).out = .jsonError st m → (deleteItem db id f).db = db) ∧
    (∀ db b f st m, (postVentas db b f).out = .jsonError st m → (postVentas db b f).db = db) ∧
    (∀ db id b f st m, (putVenta db id b f).out = .jsonError st m → (putVenta db id b f).db = db) ∧
    (∀ db b f st m, (postProductoVenta db b f).out = .jsonError st m →
      (postProductoVenta db b f).db = db) ∧
    (∀ db id b f st m, (putProductoVenta db id b f).out = .jsonError st m →
      (putProductoVenta db id b f).db = db) ∧
    (∀ db id f st m, (deleteProductoVenta db id f).out = .jsonError st m →
      (deleteProductoVenta db id f).db = db) ∧
    ((deleteVenta dbA 1 false true).out = .jsonError 500 "Internal server error" ∧
     (deleteVenta dbA 1 false true).db.producto_ventas = [] ∧
     (deleteVenta dbA 1 false true).db.reg_ventas = dbA.reg_ventas) := by
  refine ⟨?_, ?_, ?_, ?_, ?_, ?_, ?_, ?_, rfl, rfl, rfl⟩
  · intro db b f st m hout
    cases f
    case false => simp [postItems] at hout
    case true => rfl
  · intro db id b f st m hout
    cases f
    case false =>
      cases h : db.items.find? (fun it => it.id == id)
      case none => simp [putItem, h]
      case some old => simp [putItem, h] at hout
    case true => rfl
  · intro db id f st m hout
    cases f
    case false =>
      cases h : db.items.any (fun it => it.id == id)
      case false => simp [deleteItem, h]
      case true => simp [deleteItem, h] at hout
    case true => rfl
  · intro db b f st m hout
    cases f
    case false => simp [postVentas] at hout
    case true => rfl
  · intro db id b f st m hout
    cases f
    case false =>
      cases h : db.reg_ventas.find? (fun v => v.id_reg_venta == id)
      case none => simp [putVenta, h]
      case some old => simp [putVenta, h] at hout
    case true => rfl
  · intro db b f st m hout
    cases f
    case false => simp [postProductoVenta] at hout
    case true => rfl
  · intro db id b f st m hout
    cases f
    case false =>
      cases h : db.producto_ventas.find? (fun pv => pv.id == id)
      case none => simp [putProductoVenta, h]
      case some old => simp [putProductoVenta, h] at hout
    case true => rfl
  · intro db id f st m hout
    cases f
    case false =>
      cases h : db.producto_ventas.any (fun pv => pv.id == id)
      case false => simp [deleteProductoVenta, h]
      case true => simp [deleteProductoVenta, h] at hout
    case true => rfl

/-- Witness for C2: a failing POST /items leaves dbA unchanged. -/
theorem handlers_atomic_except_deleteVenta_witness :
    (postItems dbA ⟨1, 1, 1, none, 1⟩ true).db = dbA :=
  handlers_atomic_except_deleteVenta.1 dbA ⟨1, 1, 1, none, 1⟩ true 500
    "Internal server error" (by rfl)

/-- An empty datastore with all auto-increment counters at 1. -/
def db0 : DB := ⟨[], [], [], [], [], [], 1, 1, 1⟩

/-- C5: POST /items then GET /items/:newId round-trips — the fetched
object equals the request body up to the server-assigned id and the
null-coalesced nullable FK — and the concrete scenario of the spec
creates item (id 1, id_producto 1, precio 9.99, cantidad 5,
id_edicion null, id_lenguaje 2) with status 201. -/
theorem post_get_roundtrip (db : DB) (b : ItemBody)
    (hfresh : ∀ it ∈ db.items, it.id ≠ db.nextItemId) :
    (∃ it, (postItems db b false).out = .success 201 it ∧
      (getItem (postItems db b false).db it.id false).out = .success 200 it ∧
      it.id_producto = b.id_producto ∧ it.precio = b.precio ∧ it.cantidad = b.cantidad ∧
      it.id_edicion = orNull b.id_edicion ∧ it.id_lenguaje = b.id_lenguaje) ∧
    (postItems db0 ⟨1, 9.99, 5, none, 2⟩ false).out =
      .success 201 ⟨1, 1, 9.99, 5, none, 2⟩ := by
  constructor
  · refine ⟨⟨db.nextItemId, b.id_producto, b.precio, b.cantidad, orNull b.id_edicion,
      b.id_lenguaje⟩, rfl, ?_, rfl, rfl, rfl, rfl, rfl⟩
    have hnone : db.items.find? (fun x => x.id == db.nextItemId) = none := by
      rw [List.find?_eq_none]
      intro x hx
      simp [hfresh x hx]
    simp [postItems, getItem, List.find?_append, hnone]
  · rfl

/-- Witness for C5: the round-trip on the empty datastore with the
spec's concrete body. -/
theorem post_get_roundtrip_witness :
    ∃ it, (postItems db0 ⟨1, 9.99, 5, none, 2⟩ false).out = .success 201 it ∧
      (getItem (postItems db0 ⟨1, 9.99, 5, none, 2⟩ false).db it.id false).out =
        .success 200 it ∧
      it.id_producto = 1 ∧ it.precio = 9.99 ∧ it.cantidad = 5 ∧
      it.id_edicion = none ∧ it.id_lenguaje = 2 :=
  (post_get_roundtrip db0 ⟨1, 9.99, 5, none, 2⟩ (by intro it h; simp [db0] at h)).1

/-- C6: GET /ventas responds 200 with every reg_venta row, ordered by
id_reg_venta descending, each with its producto_venta rows nested. -/
theorem getVentas_sorted_desc (db : DB) :
    (getVentas db false).out = .success 200 (ventasView db) ∧
    ((ventasView db).map VentaWithPV.venta).Perm db.reg_ventas ∧
    List.Sorted ventaGE ((ventasView db).map VentaWithPV.venta) ∧
    ∀ x ∈ ventasView db, x.producto_venta = pvOf db x.venta := by
  have hmap : ((ventasView db).map VentaWithPV.venta) =
      List.insertionSort ventaGE db.reg_ventas := by
    simp [ventasView, List.map_map, Function.comp_def]
  refine ⟨rfl, ?_, ?_, ?_⟩
  · rw [hmap]
    exact List.perm_insertionSort _ _
  · rw [hmap]
    exact List.sorted_insertionSort _ _
  · intro x hx
    simp [ventasView] at hx
    obtain ⟨v, hv, rfl⟩ := hx
    rfl

/-- C7: PUT /items/:id fully replaces the mutable fields by primary key
and answers 200 with the updated record; when the row is absent (or the
collaborator throws) it answers the generic 500 and never a 404. -/
theorem putItem_full_replace_500 (db : DB) (id : Int) (b : ItemBody) :
    (db.items.find? (fun it => it.id == id) = none →
      putItem db id b false = ⟨internalError, db, [.update .item]⟩) ∧
    (∀ old, db.items.find? (fun it => it.id == id) = some old →
      putItem db id b false =
        ⟨.success 200 ⟨old.id, b.id_producto, b.precio, b.cantidad, orNull b.id_edicion,
            b.id_lenguaje⟩,
         { db with items := db.items.map (fun x => if x.id == id then
             ⟨old.id, b.id_producto, b.precio, b.cantidad, orNull b.id_edicion, b.id_lenguaje⟩
           else x) },
         [.update .item]⟩) ∧
    (∀ f m, (putItem db id b f).out ≠ .jsonError 404 m) := by
  refine ⟨?_, ?_, ?_⟩
  · intro h
    simp [putItem, h]
  · intro old h
    simp [putItem, h]
  · intro f m h
    cases f
    case false =>
      cases hf : db.items.find? (fun it => it.id == id)
      case none => simp [putItem, hf, internalError] at h
      case some old => simp [putItem, hf] at h
    case true => simp [putItem, internalError] at h

/-- Witness for C7: updating the absent item 7 of dbA yields the
generic 500 with dbA unchanged. -/
theorem putItem_full_replace_500_witness :
    putItem dbA 7 ⟨1, 1, 1, none, 1⟩ false = ⟨internalError, dbA, [.update .item]⟩ :=
  (putItem_full_replace_500 dbA 7 ⟨1, 1, 1, none, 1⟩).1 (by rfl)

/-- C8: POST /ventas and PUT /ventas/:id store a truthy hora as the
fixed epoch date 1970-01-01 composed with the supplied time-of-day
string, and store null for an omitted or falsy fecha or hora. -/
theorem venta_hora_epoch_composition (db : DB) (id : Int) (b : VentaBody) :
    (∃ v, (postVentas db b false).out = .success 201 v ∧
      v.monto_total = b.monto_total ∧ v.m_pago = b.m_pago ∧
      (∀ s, b.hora = some s → s ≠ "" → v.hora = some ("1970-01-01T" ++ s)) ∧
      ((b.hora = none ∨ b.hora = some "") → v.hora = none) ∧
      ((b.fecha = none ∨ b.fecha = some "") → v.fecha = none)) ∧
    (∀ old, db.reg_ventas.find? (fun v => v.id_reg_venta == id) = some old →
      ∃ v, (putVenta db id b false).out = .success 200 v ∧
        (∀ s, b.hora = some s → s ≠ "" → v.hora = some ("1970-01-01T" ++ s)) ∧
        ((b.hora = none ∨ b.hora = some "") → v.hora = none) ∧
        ((b.fecha = none ∨ b.fecha = some "") → v.fecha = none)) := by
  have hhora : ∀ s, b.hora = some s → s ≠ "" →
      epochTimeOrNull b.hora = some ("1970-01-01T" ++ s) := by
    intro s hs hne
    simp [epochTimeOrNull, hs, hne]
  have hhnone : (b.hora = none ∨ b.hora = some "") → epochTimeOrNull b.hora = none := by
    rintro (h | h) <;> simp [epochTimeOrNull, h]
  have hfnone : (b.fecha = none ∨ b.fecha = some "") → jsDateOrNull b.fecha = none := by
    rintro (h | h) <;> simp [jsDateOrNull, h]
  constructor
  · exact ⟨⟨db.nextRegVentaId, b.monto_total, jsDateOrNull b.fecha, epochTimeOrNull b.hora,
      b.m_pago⟩, rfl, rfl, rfl, hhora, hhnone, hfnone⟩
  · intro old hfind
    refine ⟨⟨old.id_reg_venta, b.monto_total, jsDateOrNull b.fecha, epochTimeOrNull b.hora,
      b.m_pago⟩, ?_, hhora, hhnone, hfnone⟩
    simp [putVenta, hfind]

/-- Witness for C8: creating a sale over dbA with hora 09:15:00 and no
fecha stores hora 1970-01-01T09:15:00 and fecha null. -/
theorem venta_hora_epoch_composition_witness :
    ∃ v, (postVentas dbA ⟨10, none, some "09:15:00", "tarjeta"⟩ false).out =
      .success 201 v ∧ v.hora = some "1970-01-01T09:15:00" ∧ v.fecha = none := by
  obtain ⟨v, hout, hm, hp, hh, hhn, hf⟩ :=
    (venta_hora_epoch_composition dbA 1 ⟨10, none, some "09:15:00", "tarjeta"⟩).1
  exact ⟨v, hout, hh "09:15:00" rfl (by decide), hf (Or.inl rfl)⟩

/-- Witness for C6: the single sale of dbA appears in the view with its
line items nested. -/
theorem getVentas_sorted_desc_witness :
    (⟨ventaA, pvOf dbA ventaA⟩ : VentaWithPV).producto_venta = pvOf dbA ventaA :=
  (getVentas_sorted_desc dbA).2.2.2 ⟨ventaA, pvOf dbA ventaA⟩ (List.Mem.head _)
